import Mathlib

/-!
Shallow embedding of the statistics sync pipeline in `pipeline/sync.py`.

Weekly quarterback stat rows are aggregated into per-team per-week
cumulative defensive yardage totals with min-method competitive ranks
(`calculate_defensive_rankings`), a stubbed record table is produced
(`calculate_team_records`), notable players are classified
(`identify_notable_qbs`), performance rows are enriched with opponent
context (the merge inside `upsert_qbs_and_performances`), and everything
is persisted through natural-key upserts with skip-on-invalid-team
(`upsert_team_defense_snapshots`, `upsert_qbs_and_performances`).
-/

/-- One weekly per-player stat row as assembled by `fetch_game_qb_stats`:
season, week, the player's team, the opponent, identifiers and stat
counters.  Yardage values are parsed Python ints, so they are modelled
as `Int` (rushing yardage can be negative). -/
structure StatRow where
  season : Nat
  week : Nat
  team_abbr : String
  opponent : String
  player_id : String
  name : String := ""
  headshot_url : Option String := none
  pass_yards : Int := 0
  rush_yards : Int := 0
  attempts : Nat := 0
  completions : Nat := 0
  pass_tds : Nat := 0
  interceptions : Nat := 0
  sacks : Nat := 0
  rush_tds : Nat := 0
  fumbles : Nat := 0
deriving DecidableEq

/-- One game row as assembled by `fetch_season_games` (no scores are
fetched, only the participants of completed games). -/
structure GameRow where
  game_id : String
  season : Nat
  week : Nat
  home_team : String
  away_team : String
deriving DecidableEq

/-- Week-only passing yards allowed by team `t` in `(s, w)`: the
`groupby(['season', 'week', 'opponent']).agg 'sum'` step of
`calculate_defensive_rankings` applied to the pass_yards column. -/
def passWeek (rows : List StatRow) (s w : Nat) (t : String) : Int :=
  ((rows.filter (fun r => r.season == s && r.week == w && r.opponent == t)).map
    (fun r => r.pass_yards)).sum

/-- Week-only rushing yards allowed by team `t` in `(s, w)`. -/
def rushWeek (rows : List StatRow) (s w : Nat) (t : String) : Int :=
  ((rows.filter (fun r => r.season == s && r.week == w && r.opponent == t)).map
    (fun r => r.rush_yards)).sum

/-- Team `t` appears as an opponent with recorded stats in `(s, w)`:
exactly the condition under which the groupby produces a row for that
key. -/
def appearsb (rows : List StatRow) (s w : Nat) (t : String) : Bool :=
  rows.any (fun r => r.season == s && r.week == w && r.opponent == t)

/-- Largest week number present anywhere in the input rows. -/
def maxWeek (rows : List StatRow) : Nat :=
  rows.foldr (fun r m => max r.week m) 0

/-- The weeks in which team `t` appears as an opponent in season `s`,
in ascending order: the `sort_values(['season', 'team_id', 'week'])`
ordering of the per-group rows before the cumulative sum. -/
def teamWeeksSorted (rows : List StatRow) (s : Nat) (t : String) : List Nat :=
  (List.range (maxWeek rows + 1)).filter (fun w => appearsb rows s w t)

/-- Running-sum scan over an ordered list of week keys: the pandas
`groupby(...).cumsum()` applied to the per-week value `f`, producing
one `(week, cumulative)` pair per group row. -/
def scanCum (f : Nat → Int) (acc : Int) : List Nat → List (Nat × Int)
  | [] => []
  | w :: ws => (w, acc + f w) :: scanCum f (acc + f w) ws

/-- Value of a scanned column at week `w` (0 when the group has no row
for `w`). -/
def cumLookup (l : List (Nat × Int)) (w : Nat) : Int :=
  match l.find? (fun p => p.1 == w) with
  | some p => p.2
  | none => 0

/-- Column `cum_pass_yards_allowed` of `calculate_defensive_rankings`
at key `(s, t, w)`. -/
def cumPassW (rows : List StatRow) (s : Nat) (t : String) (w : Nat) : Int :=
  cumLookup (scanCum (fun x => passWeek rows s x t) 0 (teamWeeksSorted rows s t)) w

/-- Column `cum_rush_yards_allowed` of `calculate_defensive_rankings`
at key `(s, t, w)`. -/
def cumRushW (rows : List StatRow) (s : Nat) (t : String) (w : Nat) : Int :=
  cumLookup (scanCum (fun x => rushWeek rows s x t) 0 (teamWeeksSorted rows s t)) w

/-- Column `cum_total_yards_allowed`, computed in the source as the sum
of the two cumulative columns. -/
def cumTotalW (rows : List StatRow) (s : Nat) (t : String) (w : Nat) : Int :=
  cumPassW rows s t w + cumRushW rows s t w

/-- The de-duplicated list of teams having a defensive-stats row in the
`(s, w)` slice: the membership of the `groupby(['season', 'week'])`
rank groups. -/
def teamsIn (rows : List StatRow) (s w : Nat) : List String :=
  ((rows.filter (fun r => r.season == s && r.week == w)).map (fun r => r.opponent)).dedup

/-- Pandas `rank(method='min', ascending=True)` of the value of `t`
within the group `teams` under the valuation `vals`: one plus the
number of group members with a strictly smaller value. -/
def rankOf (vals : String → Int) (teams : List String) (t : String) : Nat :=
  1 + teams.countP (fun u => decide (vals u < vals t))

/-- Column `pass_def_rank` at key `(s, w, t)`. -/
def passRank (rows : List StatRow) (s w : Nat) : String → Nat :=
  rankOf (fun u => cumPassW rows s u w) (teamsIn rows s w)

/-- Column `rush_def_rank` at key `(s, w, t)`. -/
def rushRank (rows : List StatRow) (s w : Nat) : String → Nat :=
  rankOf (fun u => cumRushW rows s u w) (teamsIn rows s w)

/-- Column `total_def_rank` at key `(s, w, t)`. -/
def totalRank (rows : List StatRow) (s w : Nat) : String → Nat :=
  rankOf (fun u => cumTotalW rows s u w) (teamsIn rows s w)

/-- One row of the `def_stats` frame returned by
`calculate_defensive_rankings`. -/
structure DefStat where
  season : Nat
  week : Nat
  team_id : String
  pass_yards_allowed : Int
  rush_yards_allowed : Int
  cum_pass_yards_allowed : Int
  cum_rush_yards_allowed : Int
  cum_total_yards_allowed : Int
  pass_def_rank : Nat
  rush_def_rank : Nat
  total_def_rank : Nat
deriving DecidableEq

/-- The distinct `(season, week, opponent)` keys of the input rows: the
index of the grouped frame. -/
def defStatKeys (rows : List StatRow) : List (Nat × Nat × String) :=
  (rows.map (fun r => (r.season, r.week, r.opponent))).dedup

/-- Assemble the `def_stats` row for one group key. -/
def mkDefStat (rows : List StatRow) : Nat × Nat × String → DefStat
  | (s, w, t) =>
    { season := s
      week := w
      team_id := t
      pass_yards_allowed := passWeek rows s w t
      rush_yards_allowed := rushWeek rows s w t
      cum_pass_yards_allowed := cumPassW rows s t w
      cum_rush_yards_allowed := cumRushW rows s t w
      cum_total_yards_allowed := cumTotalW rows s t w
      pass_def_rank := passRank rows s w t
      rush_def_rank := rushRank rows s w t
      total_def_rank := totalRank rows s w t }

/-- The full output of `calculate_defensive_rankings`, one row per
distinct `(season, week, opponent)` key. -/
def defStats (rows : List StatRow) : List DefStat :=
  (defStatKeys rows).map (mkDefStat rows)

/-- Prefix-ranged filtered sum: the closed running-sum form that the
cumulative columns are claimed to equal. -/
def partialSum (f : Nat → Int) (p : Nat → Bool) (n : Nat) : Int :=
  (((List.range n).filter p).map f).sum

/-- Concrete three-team example: in season 2024 the defenses D1, D2, D3
allow cumulative total yards 300, 300, 450 through week 2. -/
def exC1 : List StatRow :=
  [ { season := 2024, week := 1, team_abbr := "T1", opponent := "D1",
      player_id := "a", pass_yards := 150, rush_yards := 0, attempts := 30 },
    { season := 2024, week := 1, team_abbr := "T2", opponent := "D2",
      player_id := "b", pass_yards := 100, rush_yards := 50, attempts := 25 },
    { season := 2024, week := 1, team_abbr := "T3", opponent := "D3",
      player_id := "c", pass_yards := 200, rush_yards := 0, attempts := 40 },
    { season := 2024, week := 2, team_abbr := "T1", opponent := "D1",
      player_id := "a", pass_yards := 150, rush_yards := 0, attempts := 28 },
    { season := 2024, week := 2, team_abbr := "T2", opponent := "D2",
      player_id := "b", pass_yards := 140, rush_yards := 10, attempts := 31 },
    { season := 2024, week := 2, team_abbr := "T3", opponent := "D3",
      player_id := "c", pass_yards := 250, rush_yards := 0, attempts := 22 } ]

/-- One row of the frame returned by `calculate_team_records`. -/
structure RecordRow where
  season : Nat
  week : Nat
  team : String
  wins : Nat
  losses : Nat
  ties : Nat
  win_pct : ℚ
deriving DecidableEq

/-- Distinct seasons present in the input rows
(`qb_stats['season'].unique()`). -/
def seasonsOf (rows : List StatRow) : List Nat :=
  (rows.map (fun r => r.season)).dedup

/-- Embedding of `calculate_team_records`: for every season, for every
team mentioned as `team_abbr` or `opponent` in that season, for every
week from 1 to the season's max recorded week, one row with hardcoded
`wins = losses = ties = 0` and `win_pct = 0.5`.  The `games_data`
argument is ignored, exactly as in the source. -/
def calculate_team_records (qb_stats : List StatRow) (games_data : List GameRow) :
    List RecordRow :=
  (seasonsOf qb_stats).flatMap (fun s =>
    ((((qb_stats.filter (fun r => r.season == s)).map (fun r => r.team_abbr)) ++
      ((qb_stats.filter (fun r => r.season == s)).map (fun r => r.opponent))).dedup).flatMap
      (fun t =>
        (List.range (maxWeek (qb_stats.filter (fun r => r.season == s)))).map (fun i =>
          { season := s, week := i + 1, team := t,
            wins := 0, losses := 0, ties := 0, win_pct := 1/2 })))

/-- The notability threshold `MIN_PASS_ATTEMPTS` of the source. -/
def MIN_PASS_ATTEMPTS : Nat := 50

/-- Most recent season present in the dataset
(`qb_stats['season'].max()`). -/
def maxSeason (rows : List StatRow) : Nat :=
  rows.foldr (fun r m => max r.season m) 0

/-- Total pass attempts of player `pid` within the most recent season. -/
def seasonAttempts (rows : List StatRow) (pid : String) : Nat :=
  (((rows.filter (fun r => r.season == maxSeason rows)).filter
      (fun r => r.player_id == pid)).map (fun r => r.attempts)).sum

/-- Embedding of `identify_notable_qbs`: the players of the most recent
season whose summed pass attempts in that season reach the threshold. -/
def identify_notable_qbs (rows : List StatRow) : List String :=
  (((rows.filter (fun r => r.season == maxSeason rows)).map
      (fun r => r.player_id)).dedup).filter
    (fun pid => decide (MIN_PASS_ATTEMPTS ≤
      (((rows.filter (fun r => r.season == maxSeason rows)).filter
          (fun r => r.player_id == pid)).map (fun r => r.attempts)).sum))

/-- One enriched performance row: the stat row plus the three opponent
context columns produced by the merge inside
`upsert_qbs_and_performances`. -/
structure Enriched where
  row : StatRow
  pass_def_rank : Nat
  total_def_rank : Nat
  opp_win_pct : ℚ
deriving DecidableEq

/-- Merge condition of the left join: the defensive-stats row for the
performance's `(season, week, opponent)`. -/
def defMatch (r : StatRow) (d : DefStat) : Bool :=
  d.season == r.season && d.week == r.week && d.team_id == r.opponent

/-- Enrichment of one performance row: the left merge with
`def_rankings`, `fillna(16)` on the two rank columns, and the constant
`opp_win_pct = 0.5` assignment of the source. -/
def enrichOne (rks : List DefStat) (r : StatRow) : Enriched :=
  match rks.find? (defMatch r) with
  | some d => { row := r, pass_def_rank := d.pass_def_rank,
                total_def_rank := d.total_def_rank, opp_win_pct := 1/2 }
  | none => { row := r, pass_def_rank := 16, total_def_rank := 16, opp_win_pct := 1/2 }

/-- The enriched frame: one output row per input performance row. -/
def enrich (qb_stats : List StatRow) (rks : List DefStat) : List Enriched :=
  qb_stats.map (enrichOne rks)

/-- Concrete single-game input for the record-engine and enrichment
claims. -/
def exC3row : StatRow :=
  { season := 2024, week := 1, team_abbr := "KC", opponent := "BUF",
    player_id := "p9", pass_yards := 250, attempts := 30 }

/-- Concrete performance row whose opponent has no defensive snapshot. -/
def exMissRow : StatRow :=
  { season := 2024, week := 3, team_abbr := "T1", opponent := "ZZZ",
    player_id := "a", attempts := 12 }

/-- Generic natural-key upsert over a list store: the SQL
INSERT ... ON CONFLICT DO UPDATE against a table with a unique index
on the natural key.  A row matching the key is updated in place; with
no match the fresh row is appended. -/
def upsertByKey {ρ : Type} (hit : ρ → Bool) (ins : ρ) (upd : ρ → ρ) : List ρ → List ρ
  | [] => [ins]
  | r :: rs => if hit r then upd r :: rs else r :: upsertByKey hit ins upd rs

/-- One persisted row of the TeamDefenseSnapshot table.  The surrogate
id and the two timestamps are abstracted as naturals drawn from a
store clock. -/
structure SnapRow where
  id : Nat
  team_id : String
  season : Nat
  week : Nat
  pass_yards_allowed : Int
  rush_yards_allowed : Int
  total_yards_allowed : Int
  points_allowed : Int
  wins : Nat
  losses : Nat
  ties : Nat
  pass_def_rank : Nat
  rush_def_rank : Nat
  total_def_rank : Nat
  createdAt : Nat
  updatedAt : Nat
deriving DecidableEq

/-- The ON CONFLICT target of the snapshot upsert:
`(team_id, season, week)`. -/
def snapHit (d : DefStat) (r : SnapRow) : Bool :=
  r.team_id == d.team_id && r.season == d.season && r.week == d.week

/-- The VALUES tuple of the snapshot INSERT: the *cumulative* columns
of the derived row are bound to the yardage parameters, and
points_allowed, wins, losses, ties are inserted as the literal 0. -/
def snapInsert (d : DefStat) (c : Nat) : SnapRow :=
  { id := c, team_id := d.team_id, season := d.season, week := d.week,
    pass_yards_allowed := d.cum_pass_yards_allowed,
    rush_yards_allowed := d.cum_rush_yards_allowed,
    total_yards_allowed := d.cum_total_yards_allowed,
    points_allowed := 0, wins := 0, losses := 0, ties := 0,
    pass_def_rank := d.pass_def_rank, rush_def_rank := d.rush_def_rank,
    total_def_rank := d.total_def_rank, createdAt := c, updatedAt := c }

/-- The DO UPDATE SET clause of the snapshot upsert: only the yardage
totals, the three ranks and the modification timestamp are written. -/
def snapUpdate (d : DefStat) (c : Nat) (r : SnapRow) : SnapRow :=
  { r with
    pass_yards_allowed := d.cum_pass_yards_allowed
    rush_yards_allowed := d.cum_rush_yards_allowed
    total_yards_allowed := d.cum_total_yards_allowed
    pass_def_rank := d.pass_def_rank
    rush_def_rank := d.rush_def_rank
    total_def_rank := d.total_def_rank
    updatedAt := c }

/-- One snapshot upsert statement executed at clock `c`. -/
def upsertSnapRows (d : DefStat) (c : Nat) : List SnapRow → List SnapRow :=
  upsertByKey (snapHit d) (snapInsert d c) (snapUpdate d c)

/-- Snapshot row with the modification timestamp masked, for comparing
store contents up to `updatedAt`. -/
def snapProj (r : SnapRow) : SnapRow := { r with updatedAt := 0 }

/-- Natural key of a persisted snapshot row. -/
def snapKeyOf (r : SnapRow) : String × Nat × Nat := (r.team_id, r.season, r.week)

/-- Snapshot table plus a clock supplying surrogate ids and
timestamps. -/
structure SnapStore where
  rows : List SnapRow
  clock : Nat
deriving DecidableEq

/-- The row loop of `upsert_team_defense_snapshots`: derived rows whose
team is not in the valid-team set are skipped with `continue`; the
rest are upserted. -/
def processSnapBatch (valid : List String) : List DefStat → SnapStore → SnapStore
  | [], st => st
  | d :: ds, st =>
    if d.team_id ∈ valid then
      processSnapBatch valid ds
        { rows := upsertSnapRows d st.clock st.rows, clock := st.clock + 1 }
    else processSnapBatch valid ds st

/-- Parameter tuple of the QB upsert. -/
structure QBParams where
  gsis_id : String
  name : String
  headshot_url : Option String
  team_id : Option String
  is_notable : Bool
deriving DecidableEq

/-- One persisted row of the QB table. -/
structure QBRow where
  id : Nat
  gsis_id : String
  name : String
  headshot_url : Option String
  team_id : Option String
  isNotable : Bool
  createdAt : Nat
  updatedAt : Nat
deriving DecidableEq

/-- The ON CONFLICT target of the QB upsert: `gsis_id`. -/
def qbHit (p : QBParams) (r : QBRow) : Bool := r.gsis_id == p.gsis_id

/-- The VALUES tuple of the QB INSERT. -/
def qbInsert (p : QBParams) (c : Nat) : QBRow :=
  { id := c, gsis_id := p.gsis_id, name := p.name,
    headshot_url := p.headshot_url, team_id := p.team_id,
    isNotable := p.is_notable, createdAt := c, updatedAt := c }

/-- The DO UPDATE SET clause of the QB upsert. -/
def qbUpdate (p : QBParams) (c : Nat) (r : QBRow) : QBRow :=
  { r with
    name := p.name
    headshot_url := p.headshot_url
    team_id := p.team_id
    isNotable := p.is_notable
    updatedAt := c }

/-- One QB upsert statement executed at clock `c`. -/
def upsertQBRows (p : QBParams) (c : Nat) : List QBRow → List QBRow :=
  upsertByKey (qbHit p) (qbInsert p c) (qbUpdate p c)

/-- QB row with the modification timestamp masked. -/
def qbProj (r : QBRow) : QBRow := { r with updatedAt := 0 }

/-- One persisted row of the QBPerformance table. -/
structure PerfRow where
  id : Nat
  qb_id : Nat
  season : Nat
  week : Nat
  opponent_id : String
  pass_yards : Int
  pass_tds : Nat
  pass_attempts : Nat
  completions : Nat
  rush_yards : Int
  rush_tds : Nat
  interceptions : Nat
  sacks : Nat
  fumbles : Nat
  opp_win_pct : ℚ
  opp_pass_def_rank : Nat
  opp_total_def_rank : Nat
  createdAt : Nat
  updatedAt : Nat
deriving DecidableEq

/-- The ON CONFLICT target of the performance upsert:
`(qb_id, season, week)`. -/
def perfHit (q s w : Nat) (r : PerfRow) : Bool :=
  r.qb_id == q && r.season == s && r.week == w

/-- The VALUES tuple of the performance INSERT, built from one enriched
row and the resolved QB surrogate id. -/
def perfInsert (e : Enriched) (q c : Nat) : PerfRow :=
  { id := c, qb_id := q, season := e.row.season, week := e.row.week,
    opponent_id := e.row.opponent, pass_yards := e.row.pass_yards,
    pass_tds := e.row.pass_tds, pass_attempts := e.row.attempts,
    completions := e.row.completions, rush_yards := e.row.rush_yards,
    rush_tds := e.row.rush_tds, interceptions := e.row.interceptions,
    sacks := e.row.sacks, fumbles := e.row.fumbles,
    opp_win_pct := e.opp_win_pct, opp_pass_def_rank := e.pass_def_rank,
    opp_total_def_rank := e.total_def_rank, createdAt := c, updatedAt := c }

/-- The DO UPDATE SET clause of the performance upsert: every stat
column, the opponent and the three context columns are overwritten. -/
def perfUpdate (e : Enriched) (c : Nat) (r : PerfRow) : PerfRow :=
  { r with
    opponent_id := e.row.opponent
    pass_yards := e.row.pass_yards
    pass_tds := e.row.pass_tds
    pass_attempts := e.row.attempts
    completions := e.row.completions
    rush_yards := e.row.rush_yards
    rush_tds := e.row.rush_tds
    interceptions := e.row.interceptions
    sacks := e.row.sacks
    fumbles := e.row.fumbles
    opp_win_pct := e.opp_win_pct
    opp_pass_def_rank := e.pass_def_rank
    opp_total_def_rank := e.total_def_rank
    updatedAt := c }

/-- One performance upsert statement executed at clock `c`. -/
def upsertPerfRows (e : Enriched) (q c : Nat) : List PerfRow → List PerfRow :=
  upsertByKey (perfHit q e.row.season e.row.week) (perfInsert e q c) (perfUpdate e c)

/-- Performance row with the modification timestamp masked. -/
def perfProj (r : PerfRow) : PerfRow := { r with updatedAt := 0 }

/-- Natural key of a persisted performance row. -/
def perfKeyOf (r : PerfRow) : Nat × Nat × Nat := (r.qb_id, r.season, r.week)

/-- The `qb_map` lookup from the external player id to the QB surrogate
id. -/
def lookupQB (m : List (String × Nat)) (pid : String) : Option Nat :=
  (m.find? (fun q => q.1 == pid)).map (fun q => q.2)

/-- Performance table plus a clock. -/
structure PerfStore where
  rows : List PerfRow
  clock : Nat
deriving DecidableEq

/-- The performance row loop of `upsert_qbs_and_performances`: rows
with no resolvable QB id or with an opponent outside the valid-team
set are skipped with `continue`; the rest are upserted. -/
def processPerfBatch (m : List (String × Nat)) (valid : List String) :
    List Enriched → PerfStore → PerfStore
  | [], st => st
  | e :: es, st =>
    match lookupQB m e.row.player_id with
    | none => processPerfBatch m valid es st
    | some q =>
      if e.row.opponent ∈ valid then
        processPerfBatch m valid es
          { rows := upsertPerfRows e q st.clock st.rows, clock := st.clock + 1 }
      else processPerfBatch m valid es st

/-- Concrete notability example: p1 totals 55 attempts in the most
recent season (2024), p2 totals 49, p3 has 120 attempts but only in
2023. -/
def exC7 : List StatRow :=
  [ { season := 2024, week := 1, team_abbr := "T1", opponent := "D1",
      player_id := "p1", attempts := 20 },
    { season := 2024, week := 2, team_abbr := "T1", opponent := "D2",
      player_id := "p1", attempts := 35 },
    { season := 2024, week := 1, team_abbr := "T2", opponent := "D1",
      player_id := "p2", attempts := 49 },
    { season := 2023, week := 1, team_abbr := "T3", opponent := "D1",
      player_id := "p3", attempts := 120 } ]

/-- Concrete game row whose result the record engine is free to use but
does not. -/
def exGame : GameRow :=
  { game_id := "g1", season := 2024, week := 1, home_team := "KC", away_team := "BUF" }

/-- Record row the stubbed engine produces for KC in week 1. -/
def exC3recKC : RecordRow :=
  { season := 2024, week := 1, team := "KC", wins := 0, losses := 0,
    ties := 0, win_pct := 1/2 }

/-- Record row the stubbed engine produces for BUF in week 1. -/
def exC3recBUF : RecordRow :=
  { season := 2024, week := 1, team := "BUF", wins := 0, losses := 0,
    ties := 0, win_pct := 1/2 }

/-- Concrete input with a negative parsed rushing-yardage value (the
source's plain int parse admits these): DN allows 10 rushing yards in
week 1 and -5 in week 2, so its cumulative totals go 10, then 5. -/
def exC2neg : List StatRow :=
  [ { season := 2024, week := 1, team_abbr := "T1", opponent := "DN",
      player_id := "a", pass_yards := 0, rush_yards := 10, attempts := 20 },
    { season := 2024, week := 2, team_abbr := "T1", opponent := "DN",
      player_id := "a", pass_yards := 0, rush_yards := -5, attempts := 21 } ]

example : cumTotalW exC1 2024 "D1" 2 = 300 := by decide
example : cumTotalW exC1 2024 "D2" 2 = 300 := by decide
example : cumTotalW exC1 2024 "D3" 2 = 450 := by decide
example : totalRank exC1 2024 2 "D1" = 1 := by decide
example : totalRank exC1 2024 2 "D3" = 3 := by decide
example : passWeek exC1 2024 2 "D1" = 150 := by decide

lemma maxWeek_cons (x : StatRow) (xs : List StatRow) :
    maxWeek (x :: xs) = max x.week (maxWeek xs) := rfl

lemma week_le_maxWeek {rows : List StatRow} {r : StatRow} (hr : r ∈ rows) :
    r.week ≤ maxWeek rows := by
  induction rows with
  | nil => cases hr
  | cons x xs ih =>
    rcases List.mem_cons.mp hr with h | h
    · subst h
      rw [maxWeek_cons]
      exact le_max_left _ _
    · exact le_trans (ih h) (by rw [maxWeek_cons]; exact le_max_right _ _)

lemma appearsb_iff {rows : List StatRow} {s w : Nat} {t : String} :
    appearsb rows s w t = true ↔
      ∃ r ∈ rows, r.season = s ∧ r.week = w ∧ r.opponent = t := by
  simp [appearsb, List.any_eq_true, and_assoc]

lemma appearsb_week_le {rows : List StatRow} {s w : Nat} {t : String}
    (h : appearsb rows s w t = true) : w ≤ maxWeek rows := by
  obtain ⟨r, hr, _, hwk, _⟩ := appearsb_iff.mp h
  exact hwk ▸ week_le_maxWeek hr

lemma mem_teamWeeksSorted {rows : List StatRow} {s w : Nat} {t : String}
    (h : appearsb rows s w t = true) : w ∈ teamWeeksSorted rows s t := by
  have hw := appearsb_week_le h
  simp only [teamWeeksSorted, List.mem_filter, List.mem_range]
  exact ⟨by omega, h⟩

lemma teamWeeksSorted_pairwise (rows : List StatRow) (s : Nat) (t : String) :
    (teamWeeksSorted rows s t).Pairwise (· < ·) :=
  (List.pairwise_lt_range _).filter _

lemma cumLookup_cons_self (w : Nat) (v : Int) (rest : List (Nat × Int)) :
    cumLookup ((w, v) :: rest) w = v := by
  simp [cumLookup]

lemma cumLookup_cons_ne (x w : Nat) (v : Int) (rest : List (Nat × Int)) (h : x ≠ w) :
    cumLookup ((x, v) :: rest) w = cumLookup rest w := by
  simp [cumLookup, List.find?_cons_of_neg, h]

lemma cumLookup_scanCum (f : Nat → Int) :
    ∀ (ws : List Nat) (a : Int) (w : Nat), ws.Pairwise (· < ·) → w ∈ ws →
      cumLookup (scanCum f a ws) w
        = a + ((ws.filter (fun x => decide (x ≤ w))).map f).sum := by
  intro ws
  induction ws with
  | nil => intro a w _ hw; cases hw
  | cons x xs ih =>
    intro a w hp hw
    rcases List.pairwise_cons.mp hp with ⟨hx, hxs⟩
    by_cases hxw : x = w
    · subst hxw
      rw [show scanCum f a (x :: xs) = (x, a + f x) :: scanCum f (a + f x) xs from rfl,
        cumLookup_cons_self]
      have hnil : xs.filter (fun y => decide (y ≤ x)) = [] :=
        List.filter_eq_nil_iff.mpr (by
          intro y hy
          have := hx y hy
          simp
          omega)
      rw [List.filter_cons]
      simp [hnil]
    · have hw' : w ∈ xs := by
        rcases List.mem_cons.mp hw with h | h
        · exact absurd h.symm hxw
        · exact h
      have hxltw : x < w := hx w hw'
      rw [show scanCum f a (x :: xs) = (x, a + f x) :: scanCum f (a + f x) xs from rfl,
        cumLookup_cons_ne _ _ _ _ hxw, ih (a + f x) w hxs hw']
      have hcons : (x :: xs).filter (fun y => decide (y ≤ w))
          = x :: xs.filter (fun y => decide (y ≤ w)) := by
        rw [List.filter_cons]
        simp
        omega
      rw [hcons, List.map_cons, List.sum_cons]
      omega

lemma range_filter_le (w : Nat) :
    ∀ n, w + 1 ≤ n →
      (List.range n).filter (fun x => decide (x ≤ w)) = List.range (w + 1) := by
  intro n hn
  induction n, hn using Nat.le_induction with
  | base =>
    apply List.filter_eq_self.mpr
    intro x hx
    have := List.mem_range.mp hx
    simp
    omega
  | succ n hmn ih =>
    rw [List.range_succ, List.filter_append, ih]
    have : [n].filter (fun x => decide (x ≤ w)) = [] := by
      simp [List.filter_cons]
      omega
    rw [this, List.append_nil]

lemma cum_eq_partialSum (f : Nat → Int) (rows : List StatRow) (s : Nat) (t : String)
    (w : Nat) (h : appearsb rows s w t = true) :
    cumLookup (scanCum f 0 (teamWeeksSorted rows s t)) w
      = partialSum f (fun x => appearsb rows s x t) (w + 1) := by
  rw [cumLookup_scanCum f _ 0 w (teamWeeksSorted_pairwise rows s t) (mem_teamWeeksSorted h)]
  unfold teamWeeksSorted partialSum
  rw [List.filter_filter]
  have hcomm : (List.range (maxWeek rows + 1)).filter
        (fun a => decide (a ≤ w) && appearsb rows s a t)
      = ((List.range (maxWeek rows + 1)).filter (fun x => decide (x ≤ w))).filter
        (fun a => appearsb rows s a t) := by
    rw [List.filter_filter]
    exact List.filter_congr (by intro x _; exact Bool.and_comm _ _)
  rw [hcomm, range_filter_le w (maxWeek rows + 1) (by have := appearsb_week_le h; omega)]
  omega

lemma cumPassW_eq_partialSum (rows : List StatRow) (s : Nat) (t : String) (w : Nat)
    (h : appearsb rows s w t = true) :
    cumPassW rows s t w
      = partialSum (fun x => passWeek rows s x t) (fun x => appearsb rows s x t) (w + 1) :=
  cum_eq_partialSum _ rows s t w h

lemma cumRushW_eq_partialSum (rows : List StatRow) (s : Nat) (t : String) (w : Nat)
    (h : appearsb rows s w t = true) :
    cumRushW rows s t w
      = partialSum (fun x => rushWeek rows s x t) (fun x => appearsb rows s x t) (w + 1) :=
  cum_eq_partialSum _ rows s t w h

lemma partialSum_add (f g : Nat → Int) (p : Nat → Bool) (n : Nat) :
    partialSum (fun x => f x + g x) p n = partialSum f p n + partialSum g p n := by
  unfold partialSum
  exact List.sum_map_add

lemma cumTotalW_eq_partialSum (rows : List StatRow) (s : Nat) (t : String) (w : Nat)
    (h : appearsb rows s w t = true) :
    cumTotalW rows s t w
      = partialSum (fun x => passWeek rows s x t + rushWeek rows s x t)
          (fun x => appearsb rows s x t) (w + 1) := by
  rw [cumTotalW, partialSum_add, cumPassW_eq_partialSum rows s t w h,
    cumRushW_eq_partialSum rows s t w h]

lemma partialSum_succ (f : Nat → Int) (p : Nat → Bool) (n : Nat) :
    partialSum f p (n + 1) = partialSum f p n + (if p n then f n else 0) := by
  unfold partialSum
  rw [List.range_succ n, List.filter_append, List.map_append, List.sum_append]
  congr 1
  by_cases hp : p n <;> simp [List.filter_cons, hp]

lemma partialSum_mono (f : Nat → Int) (p : Nat → Bool) (hf : ∀ k, 0 ≤ f k)
    {n m : Nat} (h : n ≤ m) : partialSum f p n ≤ partialSum f p m := by
  induction m, h using Nat.le_induction with
  | base => exact le_refl _
  | succ m hm ih =>
    rw [partialSum_succ]
    have := hf m
    split <;> omega

lemma passWeek_nonneg (rows : List StatRow) (s w : Nat) (t : String)
    (h : ∀ r ∈ rows, 0 ≤ r.pass_yards) : 0 ≤ passWeek rows s w t := by
  unfold passWeek
  apply List.sum_nonneg
  intro x hx
  simp only [List.mem_map] at hx
  obtain ⟨r, hr, rfl⟩ := hx
  exact h r (List.mem_filter.mp hr).1

lemma rushWeek_nonneg (rows : List StatRow) (s w : Nat) (t : String)
    (h : ∀ r ∈ rows, 0 ≤ r.rush_yards) : 0 ≤ rushWeek rows s w t := by
  unfold rushWeek
  apply List.sum_nonneg
  intro x hx
  simp only [List.mem_map] at hx
  obtain ⟨r, hr, rfl⟩ := hx
  exact h r (List.mem_filter.mp hr).1

lemma rankOf_le_length (vals : String → Int) (teams : List String) (t : String)
    (ht : t ∈ teams) : rankOf vals teams t ≤ teams.length := by
  unfold rankOf
  have h1 := List.length_eq_countP_add_countP (fun u => decide (vals u < vals t)) (l := teams)
  have h2 : 0 < teams.countP (fun a => decide ¬(decide (vals a < vals t) = true)) := by
    apply List.countP_pos_iff.mpr
    exact ⟨t, ht, by simp⟩
  omega

lemma rankOf_congr (vals : String → Int) (teams : List String) {t u : String}
    (h : vals u = vals t) : rankOf vals teams u = rankOf vals teams t := by
  unfold rankOf
  simp only [h]

lemma rankOf_min (vals : String → Int) (teams : List String) (t : String)
    (h : ∀ u ∈ teams, vals t ≤ vals u) : rankOf vals teams t = 1 := by
  unfold rankOf
  have hz : teams.countP (fun u => decide (vals u < vals t)) = 0 :=
    List.countP_eq_zero.mpr (by
      intro u hu
      simpa using not_lt.mpr (h u hu))
  omega

lemma mem_defStatKeys {rows : List StatRow} {s w : Nat} {t : String} :
    (s, w, t) ∈ defStatKeys rows ↔ appearsb rows s w t = true := by
  simp [defStatKeys, List.mem_dedup, List.mem_map, appearsb, List.any_eq_true,
    Prod.ext_iff, and_assoc]

lemma defStats_fields {rows : List StatRow} {d : DefStat} (hd : d ∈ defStats rows) :
    d.cum_pass_yards_allowed = cumPassW rows d.season d.team_id d.week ∧
    d.cum_rush_yards_allowed = cumRushW rows d.season d.team_id d.week ∧
    d.cum_total_yards_allowed = cumTotalW rows d.season d.team_id d.week ∧
    d.pass_yards_allowed = passWeek rows d.season d.week d.team_id ∧
    d.rush_yards_allowed = rushWeek rows d.season d.week d.team_id ∧
    appearsb rows d.season d.week d.team_id = true := by
  obtain ⟨k, hk, rfl⟩ := List.mem_map.mp hd
  obtain ⟨s, w, t⟩ := k
  exact ⟨rfl, rfl, rfl, rfl, rfl, mem_defStatKeys.mp hk⟩

lemma mem_identify_notable_iff {rows : List StatRow} {pid : String} :
    pid ∈ identify_notable_qbs rows ↔ MIN_PASS_ATTEMPTS ≤ seasonAttempts rows pid := by
  unfold identify_notable_qbs
  simp only [List.mem_filter, List.mem_dedup, List.mem_map, decide_eq_true_eq]
  constructor
  · rintro ⟨_, h⟩
    exact h
  · intro h
    refine ⟨?_, h⟩
    by_contra hno
    have hnil : (rows.filter (fun r => r.season == maxSeason rows)).filter
        (fun r => r.player_id == pid) = [] := by
      apply List.filter_eq_nil_iff.mpr
      intro r hr
      simp only [beq_iff_eq]
      intro hpid
      exact hno ⟨r, List.mem_filter.mp hr, hpid⟩
    have hz : seasonAttempts rows pid = 0 := by
      unfold seasonAttempts
      rw [hnil]
      rfl
    rw [hz] at h
    exact absurd h (by decide)

example : (calculate_team_records [exC3row] []).length = 2 := by decide

example :
    (enrich [exMissRow] (defStats exC1)).map (fun e => e.pass_def_rank) = [16] := by
  decide

lemma upsertByKey_twice_map {ρ σ : Type} (hit : ρ → Bool) (ins₁ ins₂ : ρ)
    (upd₁ upd₂ : ρ → ρ)
    (π : ρ → σ) (h₁ : hit ins₁ = true) (h₂ : ∀ r, hit r = true → hit (upd₁ r) = true)
    (h₃ : π (upd₂ ins₁) = π ins₁) (h₄ : ∀ r, π (upd₂ (upd₁ r)) = π (upd₁ r)) :
    ∀ l, (upsertByKey hit ins₂ upd₂ (upsertByKey hit ins₁ upd₁ l)).map π
      = (upsertByKey hit ins₁ upd₁ l).map π := by
  intro l
  induction l with
  | nil => simp [upsertByKey, h₁, h₃]
  | cons r rs ih =>
    by_cases hr : hit r = true
    · simp [upsertByKey, hr, h₂ r hr, h₄ r]
    · have hr' : hit r = false := by simpa using hr
      simp only [upsertByKey, hr', Bool.false_eq_true, if_false, List.map_cons]
      rw [ih]

lemma upsertByKey_map_key {ρ κ : Type} (hit : ρ → Bool) (ins : ρ) (upd : ρ → ρ)
    (kf : ρ → κ) (h : ∀ r, hit r = true → kf (upd r) = kf r) :
    ∀ l, l.any hit = true →
      (upsertByKey hit ins upd l).map kf = l.map kf := by
  intro l
  induction l with
  | nil => intro h0; simp at h0
  | cons r rs ih =>
    intro hl
    by_cases hr : hit r = true
    · simp [upsertByKey, hr, h r hr]
    · have hr' : hit r = false := by simpa using hr
      have hrs : rs.any hit = true := by simpa [List.any_cons, hr'] using hl
      simp [upsertByKey, hr', ih hrs]

lemma upsertByKey_mem_upd {ρ : Type} (hit : ρ → Bool) (ins : ρ) (upd : ρ → ρ) :
    ∀ (l : List ρ) (r : ρ), l.countP hit ≤ 1 → r ∈ l → hit r = true →
      upd r ∈ upsertByKey hit ins upd l := by
  intro l
  induction l with
  | nil => intro r _ hr; cases hr
  | cons x xs ih =>
    intro r hcount hr hhit
    rcases List.mem_cons.mp hr with h | h
    · subst h
      simp [upsertByKey, hhit]
    · by_cases hx : hit x = true
      · exfalso
        rw [List.countP_cons] at hcount
        simp only [hx, if_true] at hcount
        have hz : xs.countP hit = 0 := by omega
        exact (List.countP_eq_zero.mp hz r h) hhit
      · have hx' : hit x = false := by simpa using hx
        have hc' : xs.countP hit ≤ 1 := by
          rw [List.countP_cons] at hcount
          simp only [hx', Bool.false_eq_true, if_false] at hcount
          omega
        simp only [upsertByKey, hx', Bool.false_eq_true, if_false, List.mem_cons]
        exact Or.inr (ih r hc' h hhit)

lemma length_eq_of_map_eq {α β : Type} {l₁ l₂ : List α} {π : α → β}
    (h : l₁.map π = l₂.map π) : l₁.length = l₂.length := by
  have := congrArg List.length h
  simpa using this

lemma snapHit_team {d : DefStat} {r : SnapRow} (h : snapHit d r = true) :
    r.team_id = d.team_id := by
  simp only [snapHit, Bool.and_eq_true, beq_iff_eq] at h
  exact h.1.1

lemma upsertSnapRows_filter_ne (d : DefStat) (c : Nat) (t : String)
    (hne : d.team_id ≠ t) :
    ∀ l : List SnapRow,
      (upsertSnapRows d c l).filter (fun r => r.team_id == t)
        = l.filter (fun r => r.team_id == t) := by
  intro l
  induction l with
  | nil =>
    simp [upsertSnapRows, upsertByKey, snapInsert, List.filter_cons, hne]
  | cons x xs ih =>
    by_cases hx : snapHit d x = true
    · have hxt : (x.team_id == t) = false := by
        rw [snapHit_team hx]
        simpa using hne
      have hut : ((snapUpdate d c x).team_id == t) = false := hxt
      simp [upsertSnapRows, upsertByKey, hx, List.filter_cons, hxt, hut]
    · have hx' : snapHit d x = false := by simpa using hx
      simp only [upsertSnapRows, upsertByKey, hx', Bool.false_eq_true, if_false,
        List.filter_cons]
      rw [show (upsertByKey (snapHit d) (snapInsert d c) (snapUpdate d c) xs).filter
          (fun r => r.team_id == t) = xs.filter (fun r => r.team_id == t) from ih]

lemma processSnapBatch_cons (valid : List String) (d : DefStat) (ds : List DefStat)
    (st : SnapStore) :
    processSnapBatch valid (d :: ds) st
      = if d.team_id ∈ valid then
          processSnapBatch valid ds
            { rows := upsertSnapRows d st.clock st.rows, clock := st.clock + 1 }
        else processSnapBatch valid ds st := by
  simp only [processSnapBatch]

lemma processPerfBatch_cons (m : List (String × Nat)) (valid : List String)
    (e : Enriched) (es : List Enriched) (st : PerfStore) :
    processPerfBatch m valid (e :: es) st
      = match lookupQB m e.row.player_id with
        | none => processPerfBatch m valid es st
        | some q =>
          if e.row.opponent ∈ valid then
            processPerfBatch m valid es
              { rows := upsertPerfRows e q st.clock st.rows, clock := st.clock + 1 }
          else processPerfBatch m valid es st := by
  simp only [processPerfBatch]

lemma processSnapBatch_filter (valid : List String) :
    ∀ (ds : List DefStat) (st : SnapStore),
      processSnapBatch valid ds st
        = processSnapBatch valid (ds.filter (fun d => decide (d.team_id ∈ valid))) st := by
  intro ds
  induction ds with
  | nil => intro st; rfl
  | cons d ds ih =>
    intro st
    by_cases hd : d.team_id ∈ valid
    · simp only [processSnapBatch_cons, if_pos hd, List.filter_cons,
        decide_eq_true hd, if_true]
      exact ih _
    · simp only [processSnapBatch_cons, if_neg hd, List.filter_cons,
        decide_eq_false hd, Bool.false_eq_true, if_false]
      exact ih st

lemma processSnapBatch_filter_team (valid : List String) (t : String) (ht : t ∉ valid) :
    ∀ (ds : List DefStat) (st : SnapStore),
      ((processSnapBatch valid ds st).rows).filter (fun r => r.team_id == t)
        = st.rows.filter (fun r => r.team_id == t) := by
  intro ds
  induction ds with
  | nil => intro st; rfl
  | cons d ds ih =>
    intro st
    by_cases hd : d.team_id ∈ valid
    · have hne : d.team_id ≠ t := fun h => ht (h ▸ hd)
      rw [processSnapBatch_cons, if_pos hd, ih]
      exact upsertSnapRows_filter_ne d st.clock t hne st.rows
    · rw [processSnapBatch_cons, if_neg hd]
      exact ih st

lemma processPerfBatch_filter (m : List (String × Nat)) (valid : List String) :
    ∀ (es : List Enriched) (st : PerfStore),
      processPerfBatch m valid es st
        = processPerfBatch m valid
            (es.filter (fun e =>
              (lookupQB m e.row.player_id).isSome && decide (e.row.opponent ∈ valid))) st := by
  intro es
  induction es with
  | nil => intro st; rfl
  | cons e es ih =>
    intro st
    cases hq : lookupQB m e.row.player_id with
    | none =>
      simp only [processPerfBatch_cons, hq, List.filter_cons, Option.isSome_none,
        Bool.false_and, Bool.false_eq_true, if_false]
      exact ih st
    | some q =>
      by_cases hop : e.row.opponent ∈ valid
      · simp only [processPerfBatch_cons, hq, List.filter_cons, Option.isSome_some,
          Bool.true_and, decide_eq_true hop, if_true, if_pos hop]
        exact ih _
      · simp only [processPerfBatch_cons, hq, List.filter_cons, Option.isSome_some,
          Bool.true_and, decide_eq_false hop, Bool.false_eq_true, if_false,
          if_neg hop]
        exact ih st

lemma processPerfBatch_skip (m : List (String × Nat)) (valid : List String)
    (e : Enriched) (es : List Enriched) (st : PerfStore)
    (h : ¬((lookupQB m e.row.player_id).isSome = true ∧ e.row.opponent ∈ valid)) :
    processPerfBatch m valid (e :: es) st = processPerfBatch m valid es st := by
  cases hq : lookupQB m e.row.player_id with
  | none => rw [processPerfBatch_cons, hq]
  | some q =>
    have hop : e.row.opponent ∉ valid := fun hin => h ⟨by rw [hq]; rfl, hin⟩
    rw [processPerfBatch_cons, hq]
    exact if_neg hop

lemma upsertSnapRows_zero (d : DefStat) (c : Nat) :
    ∀ l, (∀ r ∈ l, r.wins = 0 ∧ r.losses = 0 ∧ r.ties = 0) →
      ∀ r' ∈ upsertSnapRows d c l, r'.wins = 0 ∧ r'.losses = 0 ∧ r'.ties = 0 := by
  intro l
  induction l with
  | nil =>
    intro _ r' hr'
    simp only [upsertSnapRows, upsertByKey, List.mem_singleton] at hr'
    subst hr'
    exact ⟨rfl, rfl, rfl⟩
  | cons x xs ih =>
    intro hl r' hr'
    by_cases hx : snapHit d x = true
    · simp only [upsertSnapRows, upsertByKey, hx, if_true] at hr'
      rcases List.mem_cons.mp hr' with h | h
      · subst h
        exact hl x (List.mem_cons_self x xs)
      · exact hl r' (List.mem_cons_of_mem x h)
    · have hx' : snapHit d x = false := by simpa using hx
      simp only [upsertSnapRows, upsertByKey, hx', Bool.false_eq_true, if_false] at hr'
      rcases List.mem_cons.mp hr' with h | h
      · subst h
        exact hl _ (List.mem_cons_self _ _)
      · exact ih (fun r hr => hl r (List.mem_cons_of_mem x hr)) r' h

lemma processSnapBatch_zero (valid : List String) :
    ∀ (ds : List DefStat) (st : SnapStore),
      (∀ r ∈ st.rows, r.wins = 0 ∧ r.losses = 0 ∧ r.ties = 0) →
      ∀ r' ∈ (processSnapBatch valid ds st).rows,
        r'.wins = 0 ∧ r'.losses = 0 ∧ r'.ties = 0 := by
  intro ds
  induction ds with
  | nil => intro st h r' hr'; exact h r' hr'
  | cons d ds ih =>
    intro st h
    by_cases hd : d.team_id ∈ valid
    · rw [processSnapBatch, if_pos hd]
      exact ih _ (upsertSnapRows_zero d st.clock st.rows h)
    · rw [processSnapBatch, if_neg hd]
      exact ih st h

/-- Claim C1: within every (season, week) slice the pass, rush and
total defensive ranks form a minimum-tie ranking of the teams present
by ascending cumulative yards allowed: no rank exceeds the number of
teams present, tied cumulative values receive the same rank, any team
with a minimal cumulative value receives rank 1, and on the concrete
example with cumulative totals 300, 300, 450 the total ranks are
1, 1, 3 (no compaction after the tie). -/
theorem def_rank_min_tie :
    (∀ (rows : List StatRow) (s w : Nat) (t : String), t ∈ teamsIn rows s w →
        (passRank rows s w t ≤ (teamsIn rows s w).length
          ∧ rushRank rows s w t ≤ (teamsIn rows s w).length
          ∧ totalRank rows s w t ≤ (teamsIn rows s w).length)
        ∧ (∀ u : String,
            (cumPassW rows s u w = cumPassW rows s t w →
              passRank rows s w u = passRank rows s w t)
          ∧ (cumRushW rows s u w = cumRushW rows s t w →
              rushRank rows s w u = rushRank rows s w t)
          ∧ (cumTotalW rows s u w = cumTotalW rows s t w →
              totalRank rows s w u = totalRank rows s w t))
        ∧ ((∀ u ∈ teamsIn rows s w, cumPassW rows s t w ≤ cumPassW rows s u w) →
            passRank rows s w t = 1)
        ∧ ((∀ u ∈ teamsIn rows s w, cumRushW rows s t w ≤ cumRushW rows s u w) →
            rushRank rows s w t = 1)
        ∧ ((∀ u ∈ teamsIn rows s w, cumTotalW rows s t w ≤ cumTotalW rows s u w) →
            totalRank rows s w t = 1))
    ∧ (cumTotalW exC1 2024 "D1" 2 = 300 ∧ cumTotalW exC1 2024 "D2" 2 = 300
        ∧ cumTotalW exC1 2024 "D3" 2 = 450
        ∧ totalRank exC1 2024 2 "D1" = 1 ∧ totalRank exC1 2024 2 "D2" = 1
        ∧ totalRank exC1 2024 2 "D3" = 3
        ∧ (teamsIn exC1 2024 2).length = 3) := by
  constructor
  · intro rows s w t ht
    refine ⟨⟨rankOf_le_length _ _ _ ht, rankOf_le_length _ _ _ ht,
      rankOf_le_length _ _ _ ht⟩, ?_, ?_, ?_, ?_⟩
    · intro u
      exact ⟨fun h => rankOf_congr _ _ h, fun h => rankOf_congr _ _ h,
        fun h => rankOf_congr _ _ h⟩
    · exact fun h => rankOf_min _ _ _ h
    · exact fun h => rankOf_min _ _ _ h
    · exact fun h => rankOf_min _ _ _ h
  · exact ⟨by decide, by decide, by decide, by decide, by decide, by decide, by decide⟩

/-- Witness for C1 at a concrete slice: D1 is present in week 2 of the
example and its pass rank is bounded by the number of teams present. -/
theorem def_rank_min_tie_witness :
    "D1" ∈ teamsIn exC1 2024 2
      ∧ passRank exC1 2024 2 "D1" ≤ (teamsIn exC1 2024 2).length :=
  ⟨by decide, ((def_rank_min_tie.1 exC1 2024 2 "D1" (by decide)).1).1⟩

/-- Claim C2 as amended: for fixed (season, team) every cumulative
yardage column of the aggregation output equals the running sum of that
team's week-only yards-allowed values over the weeks up to and
including the current one in which the team appeared as an opponent
(unconditionally), is non-decreasing in the week provided the per-row
yardage values are nonnegative (with a negative parsed value the
cumulative sum can decrease, see the counterexample), and a
(season, week, team) key has an output row exactly when the team
appeared as an opponent that week (no synthetic zero-rows, no
forward-fill). -/
theorem cum_yards_running_sum :
    (∀ (rows : List StatRow) (s : Nat) (t : String) (w : Nat),
        appearsb rows s w t = true →
        cumPassW rows s t w
            = partialSum (fun x => passWeek rows s x t) (fun x => appearsb rows s x t) (w + 1)
          ∧ cumRushW rows s t w
            = partialSum (fun x => rushWeek rows s x t) (fun x => appearsb rows s x t) (w + 1)
          ∧ cumTotalW rows s t w
            = partialSum (fun x => passWeek rows s x t + rushWeek rows s x t)
                (fun x => appearsb rows s x t) (w + 1))
    ∧ (∀ (rows : List StatRow) (s : Nat) (t : String) (w' w : Nat),
        (∀ r ∈ rows, 0 ≤ r.pass_yards) → (∀ r ∈ rows, 0 ≤ r.rush_yards) →
        w' ≤ w → appearsb rows s w' t = true → appearsb rows s w t = true →
        cumPassW rows s t w' ≤ cumPassW rows s t w
          ∧ cumRushW rows s t w' ≤ cumRushW rows s t w
          ∧ cumTotalW rows s t w' ≤ cumTotalW rows s t w)
    ∧ (∀ (rows : List StatRow) (s w : Nat) (t : String),
        (s, w, t) ∈ defStatKeys rows ↔ appearsb rows s w t = true)
    ∧ (∀ (rows : List StatRow) (d : DefStat), d ∈ defStats rows →
        d.cum_pass_yards_allowed = cumPassW rows d.season d.team_id d.week
          ∧ d.cum_rush_yards_allowed = cumRushW rows d.season d.team_id d.week
          ∧ d.cum_total_yards_allowed = cumTotalW rows d.season d.team_id d.week) := by
  refine ⟨?_, ?_, ?_, ?_⟩
  · intro rows s t w h
    exact ⟨cumPassW_eq_partialSum rows s t w h, cumRushW_eq_partialSum rows s t w h,
      cumTotalW_eq_partialSum rows s t w h⟩
  · intro rows s t w' w hp hr hle h1 h2
    have hsucc : w' + 1 ≤ w + 1 := by omega
    refine ⟨?_, ?_, ?_⟩
    · rw [cumPassW_eq_partialSum rows s t w' h1, cumPassW_eq_partialSum rows s t w h2]
      exact partialSum_mono _ _ (fun k => passWeek_nonneg rows s k t hp) hsucc
    · rw [cumRushW_eq_partialSum rows s t w' h1, cumRushW_eq_partialSum rows s t w h2]
      exact partialSum_mono _ _ (fun k => rushWeek_nonneg rows s k t hr) hsucc
    · rw [cumTotalW_eq_partialSum rows s t w' h1, cumTotalW_eq_partialSum rows s t w h2]
      exact partialSum_mono _ _
        (fun k => add_nonneg (passWeek_nonneg rows s k t hp) (rushWeek_nonneg rows s k t hr))
        hsucc
  · intro rows s w t
    exact mem_defStatKeys
  · intro rows d hd
    exact ⟨(defStats_fields hd).1, (defStats_fields hd).2.1, (defStats_fields hd).2.2.1⟩

/-- Witness for C2 at a concrete key: D1 appears in week 2 of the
example and its cumulative pass yards equal the running sum. -/
theorem cum_yards_running_sum_witness :
    appearsb exC1 2024 2 "D1" = true
      ∧ cumPassW exC1 2024 "D1" 2
          = partialSum (fun x => passWeek exC1 2024 x "D1")
              (fun x => appearsb exC1 2024 x "D1") 3 :=
  ⟨by decide, (cum_yards_running_sum.1 exC1 2024 "D1" 2 (by decide)).1⟩

/-- Claim C3 (against the code): on a concrete one-game input the
record engine produces exactly two rows, both carrying the hardcoded
values wins = losses = ties = 0 (so games = 0) together with the
concrete win_pct 0.5 instead of a guarded missing value, and the game
results argument is ignored entirely. -/
theorem team_records_stub :
    calculate_team_records [exC3row] [] = [exC3recKC, exC3recBUF]
    ∧ calculate_team_records [exC3row] [exGame] = calculate_team_records [exC3row] []
    ∧ exC3recKC.wins + exC3recKC.losses + exC3recKC.ties = 0
    ∧ exC3recKC.win_pct = 1/2 := by
  exact ⟨rfl, rfl, rfl, rfl⟩

/-- Claim C4 (against the code): the enrichment attaches the constant
0.5 as `opp_win_pct` to every performance row, for every possible
rankings input — no lookup of the opponent's record takes place. -/
theorem opp_win_pct_constant :
    ∀ (qb_stats : List StatRow) (rks : List DefStat) (e : Enriched),
      e ∈ enrich qb_stats rks → e.opp_win_pct = 1/2 := by
  intro qb rks e he
  obtain ⟨r, _, rfl⟩ := List.mem_map.mp he
  cases h : rks.find? (defMatch r) with
  | none => simp [enrichOne, h]
  | some d => simp [enrichOne, h]

/-- Witness for C4 at a concrete row: the enriched example row carries
opp_win_pct 0.5. -/
theorem opp_win_pct_constant_witness :
    enrichOne (defStats exC1) exC3row ∈ enrich [exC3row] (defStats exC1)
    ∧ (enrichOne (defStats exC1) exC3row).opp_win_pct = 1/2 :=
  ⟨List.mem_map_of_mem _ (by decide),
    opp_win_pct_constant [exC3row] (defStats exC1) _
      (List.mem_map_of_mem _ (by decide))⟩

/-- Claim C5: a performance row whose (season, week, opponent) key has
no matching defensive-stats row is enriched with exactly the documented
defaults opp_pass_def_rank = 16, opp_total_def_rank = 16 and
opp_win_pct = 0.5, and that enriched row is part of the output. -/
theorem enrich_default_fallback :
    ∀ (qb_stats : List StatRow) (rks : List DefStat) (r : StatRow),
      r ∈ qb_stats → rks.find? (defMatch r) = none →
      enrichOne rks r
          = { row := r, pass_def_rank := 16, total_def_rank := 16, opp_win_pct := 1/2 }
        ∧ enrichOne rks r ∈ enrich qb_stats rks := by
  intro qb rks r hr hnone
  constructor
  · simp [enrichOne, hnone]
  · exact List.mem_map_of_mem _ hr

/-- Witness for C5: the example row with opponent ZZZ has no snapshot
in the example rankings and receives the defaults. -/
theorem enrich_default_fallback_witness :
    (exMissRow ∈ [exMissRow] ∧ (defStats exC1).find? (defMatch exMissRow) = none)
    ∧ enrichOne (defStats exC1) exMissRow
        = { row := exMissRow, pass_def_rank := 16, total_def_rank := 16,
            opp_win_pct := 1/2 } :=
  ⟨⟨by decide, by decide⟩,
    (enrich_default_fallback [exMissRow] (defStats exC1) exMissRow
      (by decide) (by decide)).1⟩

/-- Claim C6 counterexample (the claim as stated is false): for the
week-2 snapshot of D1 the persisted `pass_yards_allowed` parameter is
the cumulative 300, while the week-only pass yards allowed are 150, on
both the insert and the update path. -/
theorem snapshot_week_only_cex :
    (snapInsert (mkDefStat exC1 (2024, 2, "D1")) 0).pass_yards_allowed = 300
    ∧ passWeek exC1 2024 2 "D1" = 150
    ∧ (snapInsert (mkDefStat exC1 (2024, 2, "D1")) 0).pass_yards_allowed
        ≠ passWeek exC1 2024 2 "D1"
    ∧ (snapUpdate (mkDefStat exC1 (2024, 2, "D1")) 1
        (snapInsert (mkDefStat exC1 (2024, 2, "D1")) 0)).pass_yards_allowed
        ≠ passWeek exC1 2024 2 "D1" := by
  exact ⟨by decide, by decide, by decide, by decide⟩

/-- Claim C6 as amended: the persisted `pass_yards_allowed`,
`rush_yards_allowed` and `total_yards_allowed` parameters of a
TeamDefenseSnapshot hold the cumulative-to-date totals of the derived
row (on both the insert and the update path); the week-only values
exist only in the in-memory frame and are not persisted separately. -/
theorem snapshot_persists_cumulative :
    ∀ (rows : List StatRow) (d : DefStat) (c : Nat), d ∈ defStats rows →
      ((snapInsert d c).pass_yards_allowed = cumPassW rows d.season d.team_id d.week
        ∧ (snapInsert d c).rush_yards_allowed = cumRushW rows d.season d.team_id d.week
        ∧ (snapInsert d c).total_yards_allowed = cumTotalW rows d.season d.team_id d.week)
      ∧ ∀ (r : SnapRow),
          (snapUpdate d c r).pass_yards_allowed = cumPassW rows d.season d.team_id d.week
          ∧ (snapUpdate d c r).rush_yards_allowed = cumRushW rows d.season d.team_id d.week
          ∧ (snapUpdate d c r).total_yards_allowed = cumTotalW rows d.season d.team_id d.week := by
  intro rows d c hd
  obtain ⟨h1, h2, h3, _, _, _⟩ := defStats_fields hd
  exact ⟨⟨h1, h2, h3⟩, fun r => ⟨h1, h2, h3⟩⟩

/-- Witness for the amended C6 at a concrete snapshot row. -/
theorem snapshot_persists_cumulative_witness :
    mkDefStat exC1 (2024, 2, "D1") ∈ defStats exC1
    ∧ (snapInsert (mkDefStat exC1 (2024, 2, "D1")) 5).pass_yards_allowed
        = cumPassW exC1 2024 "D1" 2 :=
  ⟨by decide, ((snapshot_persists_cumulative exC1 _ 5 (by decide)).1).1⟩

/-- Claim C7: a player is in the notable set exactly when the sum of
the player's pass attempts within the most recent season reaches the
threshold of 50; in the concrete example p1 (20 + 35 = 55) is notable,
p2 (49) is not, and p3 (120 attempts, but in an older season) is not. -/
theorem notable_iff_threshold :
    (∀ (rows : List StatRow) (pid : String),
        pid ∈ identify_notable_qbs rows ↔ MIN_PASS_ATTEMPTS ≤ seasonAttempts rows pid)
    ∧ ("p1" ∈ identify_notable_qbs exC7 ∧ seasonAttempts exC7 "p1" = 55)
    ∧ ("p2" ∉ identify_notable_qbs exC7 ∧ seasonAttempts exC7 "p2" = 49)
    ∧ "p3" ∉ identify_notable_qbs exC7 := by
  exact ⟨fun rows pid => mem_identify_notable_iff, ⟨by decide, by decide⟩,
    ⟨by decide, by decide⟩, by decide⟩

/-- Witness for C7 at a concrete player: p1 crosses the threshold and
is in the notable set by the equivalence. -/
theorem notable_iff_threshold_witness :
    MIN_PASS_ATTEMPTS ≤ seasonAttempts exC7 "p1" ∧ "p1" ∈ identify_notable_qbs exC7 :=
  ⟨by decide, (notable_iff_threshold.1 exC7 "p1").mpr (by decide)⟩

/-- Claim C8: each of the three upserts is idempotent under its natural
key — running the same statement twice leaves the store with the same
row count and, up to the modification timestamp, the same rows — and an
upsert hitting an existing key rewrites that row's mutable columns in
place, adding no row and changing no natural key. -/
theorem upsert_idempotent_in_place :
    (∀ (l : List SnapRow) (d : DefStat) (c₁ c₂ : Nat),
        (upsertSnapRows d c₂ (upsertSnapRows d c₁ l)).map snapProj
          = (upsertSnapRows d c₁ l).map snapProj
        ∧ (upsertSnapRows d c₂ (upsertSnapRows d c₁ l)).length
          = (upsertSnapRows d c₁ l).length)
    ∧ (∀ (l : List SnapRow) (d : DefStat) (c : Nat),
        l.any (snapHit d) = true →
        (upsertSnapRows d c l).map snapKeyOf = l.map snapKeyOf)
    ∧ (∀ (l : List SnapRow) (d : DefStat) (c : Nat) (r : SnapRow),
        l.countP (snapHit d) ≤ 1 → r ∈ l → snapHit d r = true →
        snapUpdate d c r ∈ upsertSnapRows d c l
        ∧ (snapUpdate d c r).pass_yards_allowed = d.cum_pass_yards_allowed
        ∧ (snapUpdate d c r).rush_yards_allowed = d.cum_rush_yards_allowed
        ∧ (snapUpdate d c r).total_yards_allowed = d.cum_total_yards_allowed
        ∧ snapKeyOf (snapUpdate d c r) = snapKeyOf r)
    ∧ (∀ (l : List QBRow) (p : QBParams) (c₁ c₂ : Nat),
        (upsertQBRows p c₂ (upsertQBRows p c₁ l)).map qbProj
          = (upsertQBRows p c₁ l).map qbProj)
    ∧ (∀ (l : List QBRow) (p : QBParams) (c : Nat),
        l.any (qbHit p) = true →
        (upsertQBRows p c l).map (fun r => r.gsis_id) = l.map (fun r => r.gsis_id))
    ∧ (∀ (l : List QBRow) (p : QBParams) (c : Nat) (r : QBRow),
        l.countP (qbHit p) ≤ 1 → r ∈ l → qbHit p r = true →
        qbUpdate p c r ∈ upsertQBRows p c l
        ∧ (qbUpdate p c r).name = p.name
        ∧ (qbUpdate p c r).isNotable = p.is_notable
        ∧ (qbUpdate p c r).gsis_id = r.gsis_id)
    ∧ (∀ (l : List PerfRow) (e : Enriched) (q c₁ c₂ : Nat),
        (upsertPerfRows e q c₂ (upsertPerfRows e q c₁ l)).map perfProj
          = (upsertPerfRows e q c₁ l).map perfProj)
    ∧ (∀ (l : List PerfRow) (e : Enriched) (q c : Nat),
        l.any (perfHit q e.row.season e.row.week) = true →
        (upsertPerfRows e q c l).map perfKeyOf = l.map perfKeyOf)
    ∧ (∀ (l : List PerfRow) (e : Enriched) (q c : Nat) (r : PerfRow),
        l.countP (perfHit q e.row.season e.row.week) ≤ 1 → r ∈ l →
        perfHit q e.row.season e.row.week r = true →
        perfUpdate e c r ∈ upsertPerfRows e q c l
        ∧ (perfUpdate e c r).pass_yards = e.row.pass_yards
        ∧ (perfUpdate e c r).opp_win_pct = e.opp_win_pct
        ∧ (perfUpdate e c r).opp_pass_def_rank = e.pass_def_rank
        ∧ perfKeyOf (perfUpdate e c r) = perfKeyOf r) := by
  refine ⟨?_, ?_, ?_, ?_, ?_, ?_, ?_, ?_, ?_⟩
  · intro l d c₁ c₂
    have h := upsertByKey_twice_map (snapHit d) (snapInsert d c₁) (snapInsert d c₂)
      (snapUpdate d c₁) (snapUpdate d c₂) snapProj
      (by simp [snapHit, snapInsert]) (fun r h => h) rfl (fun r => rfl) l
    exact ⟨h, length_eq_of_map_eq h⟩
  · intro l d c h
    exact upsertByKey_map_key (snapHit d) (snapInsert d c) (snapUpdate d c)
      snapKeyOf (fun r _ => rfl) l h
  · intro l d c r hc hr hhit
    exact ⟨upsertByKey_mem_upd _ _ _ l r hc hr hhit, rfl, rfl, rfl, rfl⟩
  · intro l p c₁ c₂
    exact upsertByKey_twice_map (qbHit p) (qbInsert p c₁) (qbInsert p c₂)
      (qbUpdate p c₁) (qbUpdate p c₂) qbProj
      (by simp [qbHit, qbInsert]) (fun r h => h) rfl (fun r => rfl) l
  · intro l p c h
    exact upsertByKey_map_key (qbHit p) (qbInsert p c) (qbUpdate p c)
      (fun r => r.gsis_id) (fun r _ => rfl) l h
  · intro l p c r hc hr hhit
    exact ⟨upsertByKey_mem_upd _ _ _ l r hc hr hhit, rfl, rfl, rfl⟩
  · intro l e q c₁ c₂
    exact upsertByKey_twice_map (perfHit q e.row.season e.row.week)
      (perfInsert e q c₁) (perfInsert e q c₂)
      (perfUpdate e c₁) (perfUpdate e c₂) perfProj
      (by simp [perfHit, perfInsert]) (fun r h => h) rfl (fun r => rfl) l
  · intro l e q c h
    exact upsertByKey_map_key (perfHit q e.row.season e.row.week)
      (perfInsert e q c) (perfUpdate e c) perfKeyOf (fun r _ => rfl) l h
  · intro l e q c r hc hr hhit
    exact ⟨upsertByKey_mem_upd _ _ _ l r hc hr hhit, rfl, rfl, rfl, rfl⟩

/-- Witness for C8 at a concrete one-row snapshot store: the store hits
the key and the upsert leaves the key column unchanged. -/
theorem upsert_idempotent_in_place_witness :
    [snapInsert (mkDefStat exC1 (2024, 1, "D1")) 0].any
        (snapHit (mkDefStat exC1 (2024, 1, "D1"))) = true
    ∧ (upsertSnapRows (mkDefStat exC1 (2024, 1, "D1")) 3
          [snapInsert (mkDefStat exC1 (2024, 1, "D1")) 0]).map snapKeyOf
        = [snapInsert (mkDefStat exC1 (2024, 1, "D1")) 0].map snapKeyOf :=
  ⟨by decide,
    upsert_idempotent_in_place.2.1 [snapInsert (mkDefStat exC1 (2024, 1, "D1")) 0]
      (mkDefStat exC1 (2024, 1, "D1")) 3 (by decide)⟩

/-- Claim C9: both persistence loops skip derived rows whose team or
opponent key fails validation, writing nothing for them while all other
rows of the batch are still processed: processing a batch equals
processing its valid-key sublist, rows of a team outside the valid set
are never touched by the snapshot loop, and an invalid element of the
performance batch is a no-op. -/
theorem skip_invalid_team :
    (∀ (valid : List String) (ds : List DefStat) (st : SnapStore),
        processSnapBatch valid ds st
          = processSnapBatch valid (ds.filter (fun d => decide (d.team_id ∈ valid))) st)
    ∧ (∀ (valid : List String) (t : String) (ds : List DefStat) (st : SnapStore),
        t ∉ valid →
        ((processSnapBatch valid ds st).rows).filter (fun r => r.team_id == t)
          = st.rows.filter (fun r => r.team_id == t))
    ∧ (∀ (m : List (String × Nat)) (valid : List String) (es : List Enriched)
          (st : PerfStore),
        processPerfBatch m valid es st
          = processPerfBatch m valid
              (es.filter (fun e =>
                (lookupQB m e.row.player_id).isSome && decide (e.row.opponent ∈ valid)))
              st)
    ∧ (∀ (m : List (String × Nat)) (valid : List String) (e : Enriched)
          (es : List Enriched) (st : PerfStore),
        ¬((lookupQB m e.row.player_id).isSome = true ∧ e.row.opponent ∈ valid) →
        processPerfBatch m valid (e :: es) st = processPerfBatch m valid es st) :=
  ⟨fun valid ds st => processSnapBatch_filter valid ds st,
   fun valid t ds st ht => processSnapBatch_filter_team valid t ht ds st,
   fun m valid es st => processPerfBatch_filter m valid es st,
   fun m valid e es st h => processPerfBatch_skip m valid e es st h⟩

/-- Witness for C9 at a concrete run: team ZZZ is outside the valid
set and the snapshot store holds no row for it after the batch. -/
theorem skip_invalid_team_witness :
    "ZZZ" ∉ ["D1"]
    ∧ ((processSnapBatch ["D1"] (defStats exC1) { rows := [], clock := 0 }).rows).filter
        (fun r => r.team_id == "ZZZ")
      = (({ rows := [], clock := 0 } : SnapStore)).rows.filter (fun r => r.team_id == "ZZZ") :=
  ⟨by decide,
    skip_invalid_team.2.1 ["D1"] "ZZZ" (defStats exC1) { rows := [], clock := 0 } (by decide)⟩

/-- Claim C10: the snapshot DO UPDATE leaves wins, losses, ties,
points_allowed, the surrogate id and the creation timestamp of the
hit row unchanged, and consequently every snapshot row ever written by
the pipeline (starting from an empty store) carries the constant
wins = losses = ties = 0 it received at insert. -/
theorem snapshot_update_frame :
    (∀ (d : DefStat) (c : Nat) (r : SnapRow),
        (snapUpdate d c r).wins = r.wins ∧ (snapUpdate d c r).losses = r.losses
        ∧ (snapUpdate d c r).ties = r.ties
        ∧ (snapUpdate d c r).points_allowed = r.points_allowed
        ∧ (snapUpdate d c r).id = r.id
        ∧ (snapUpdate d c r).createdAt = r.createdAt)
    ∧ (∀ (valid : List String) (ds : List DefStat) (r : SnapRow),
        r ∈ (processSnapBatch valid ds { rows := [], clock := 0 }).rows →
        r.wins = 0 ∧ r.losses = 0 ∧ r.ties = 0) := by
  constructor
  · exact fun d c r => ⟨rfl, rfl, rfl, rfl, rfl, rfl⟩
  · intro valid ds r hr
    exact processSnapBatch_zero valid ds { rows := [], clock := 0 }
      (fun r hr => absurd hr (List.not_mem_nil r)) r hr

/-- Witness for C10 at a concrete run: the row written for D1 is in
the store and carries zero wins, losses and ties. -/
theorem snapshot_update_frame_witness :
    snapInsert (mkDefStat exC1 (2024, 1, "D1")) 0
        ∈ (processSnapBatch ["D1"] [mkDefStat exC1 (2024, 1, "D1")]
            { rows := [], clock := 0 }).rows
    ∧ ((snapInsert (mkDefStat exC1 (2024, 1, "D1")) 0).wins = 0
        ∧ (snapInsert (mkDefStat exC1 (2024, 1, "D1")) 0).losses = 0
        ∧ (snapInsert (mkDefStat exC1 (2024, 1, "D1")) 0).ties = 0) :=
  ⟨by decide,
    snapshot_update_frame.2 ["D1"] [mkDefStat exC1 (2024, 1, "D1")] _ (by decide)⟩

/-- Claim C2 counterexample (the unconditional non-decreasing part of
the claim as stated is false): DN appears as an opponent in weeks 1
and 2 of the example with a -5 rushing row in week 2, and both its
cumulative rushing and cumulative total yards decrease from 10 to 5
between the two appearing weeks. -/
theorem cum_not_monotone_cex :
    appearsb exC2neg 2024 1 "DN" = true
    ∧ appearsb exC2neg 2024 2 "DN" = true
    ∧ cumRushW exC2neg 2024 "DN" 1 = 10
    ∧ cumRushW exC2neg 2024 "DN" 2 = 5
    ∧ ¬(cumRushW exC2neg 2024 "DN" 1 ≤ cumRushW exC2neg 2024 "DN" 2)
    ∧ cumTotalW exC2neg 2024 "DN" 1 = 10
    ∧ cumTotalW exC2neg 2024 "DN" 2 = 5
    ∧ ¬(cumTotalW exC2neg 2024 "DN" 1 ≤ cumTotalW exC2neg 2024 "DN" 2) := by
  exact ⟨by decide, by decide, by decide, by decide, by decide, by decide,
    by decide, by decide⟩
